import Mathlib

/-!
Shallow embedding of the pytest-selenium repository's configuration
resolution (`config/environment_manager.py`), test lifecycle hooks
(`conftest.py`) and page-object probe (`pages/base_page.py`), with
theorems settling the specification claims about them.
-/

namespace PytestSelenium

/-! ## Data model: `config/environment_manager.py` -/

/-- The `WindowSize` dataclass: width and height in pixels. -/
structure WindowSize where
  width : Int
  height : Int
deriving Repr, DecidableEq

/-- Model of the dict value found under the `window_size` key of a record,
as it is passed to `WindowSize(**window_size_data)`: the `width` and
`height` keys may each be present or absent, and the dict may carry keys
other than those two (`extraKeys`). -/
structure WindowDict where
  width : Option Int
  height : Option Int
  extraKeys : Bool
deriving Repr, DecidableEq

/-- Constructing `WindowSize(**d)`: building the dataclass from keyword arguments
succeeds exactly when both `width` and `height` are supplied and no
unexpected keyword is present; otherwise Python raises `TypeError`. -/
def mkWindowSize (d : WindowDict) : Except String WindowSize :=
  if d.extraKeys then
    .error "TypeError: unexpected keyword argument"
  else
    match d.width, d.height with
    | some w, some h => .ok ⟨w, h⟩
    | _, _ => .error "TypeError: missing required positional argument"

/-- The `EnvironmentConfig` dataclass: a fully populated resolved
configuration. -/
structure EnvironmentConfig where
  environment : String
  base_url : String
  username : String
  password : String
  timeout : Int
  browser : String
  headless : Bool
  window_size : WindowSize
  implicit_wait : Int
  page_load_timeout : Int
deriving Repr, DecidableEq

/-- A record dictionary as read from an environment JSON file: each key
`EnvironmentConfig.from_dict` looks at may be present or absent. -/
structure RecordDict where
  environment : Option String
  base_url : Option String
  username : Option String
  password : Option String
  timeout : Option Int
  browser : Option String
  headless : Option Bool
  window_size : Option WindowDict
  implicit_wait : Option Int
  page_load_timeout : Option Int
deriving Repr, DecidableEq

/-- The empty record `{}`. -/
def RecordDict.empty : RecordDict :=
  ⟨none, none, none, none, none, none, none, none, none, none⟩

/-- The default dict used when `window_size` is absent:
`{'width': 1920, 'height': 1080}`. -/
def defaultWindowDict : WindowDict := ⟨some 1920, some 1080, false⟩

/-- The classmethod `EnvironmentConfig.from_dict`: every absent field is replaced by its
fixed default; the `window_size` value (or the default dict) is passed to
`WindowSize(**...)`, which can raise, so the result is fallible. -/
def EnvironmentConfig.from_dict (data : RecordDict) :
    Except String EnvironmentConfig := do
  let window_size ← mkWindowSize (data.window_size.getD defaultWindowDict)
  .ok
    { environment := data.environment.getD "prod"
      base_url := data.base_url.getD "https://www.saucedemo.com/"
      username := data.username.getD "standard_user"
      password := data.password.getD "secret_sauce"
      timeout := data.timeout.getD 10
      browser := data.browser.getD "chrome"
      headless := data.headless.getD false
      window_size := window_size
      implicit_wait := data.implicit_wait.getD 3
      page_load_timeout := data.page_load_timeout.getD 20 }

/-- A record is window-well-formed when its `window_size` entry, if
present, supplies exactly the `width` and `height` keys. -/
def windowOk (data : RecordDict) : Bool :=
  match data.window_size with
  | none => true
  | some wd => wd.width.isSome && wd.height.isSome && !wd.extraKeys

/-- Defaulting resolution as the specification describes it: each field
absent from the record equals its documented default (base_url
"https://www.saucedemo.com/", username "standard_user", password
"secret_sauce", timeout 10, browser "chrome", headless false, window
1920x1080, implicit_wait 3, page_load_timeout 20). Stated from the
spec's words, to be compared with `EnvironmentConfig.from_dict`. -/
def specResolve (data : RecordDict) : EnvironmentConfig :=
  { environment := data.environment.getD "prod"
    base_url := data.base_url.getD "https://www.saucedemo.com/"
    username := data.username.getD "standard_user"
    password := data.password.getD "secret_sauce"
    timeout := data.timeout.getD 10
    browser := data.browser.getD "chrome"
    headless := data.headless.getD false
    window_size :=
      match data.window_size with
      | none => ⟨1920, 1080⟩
      | some wd => ⟨wd.width.getD 1920, wd.height.getD 1080⟩
    implicit_wait := data.implicit_wait.getD 3
    page_load_timeout := data.page_load_timeout.getD 20 }

/-! ## The environment manager: directory listing and loading -/

/-- A file in the environments directory: a stem, an extension, and the
content obtained when it is opened and parsed as JSON. -/
inductive FileContent where
  /-- Parsing raises `JSONDecodeError` with this diagnostic. -/
  | malformed (msg : String)
  /-- Parsing yields this record dictionary. -/
  | record (r : RecordDict)
deriving Repr, DecidableEq

/-- A file of the environments directory, named `<stem>.<ext>`. -/
structure EnvFile where
  stem : String
  ext : String
  content : FileContent
deriving Repr, DecidableEq

/-- The `EnvironmentManager`: the environments directory (absent or a
list of files) plus the `_config` cache. -/
structure EnvironmentManager where
  environmentsDir : Option (List EnvFile)
  config : Option EnvironmentConfig
deriving Repr, DecidableEq

/-- The method `get_available_environments`: `[]` when the directory does not exist,
else the stems of the `*.json` files it holds. -/
def EnvironmentManager.get_available_environments
    (m : EnvironmentManager) : List String :=
  match m.environmentsDir with
  | none => []
  | some files => (files.filter (fun f => f.ext == "json")).map (·.stem)

/-- Errors `load_environment` can raise. -/
inductive LoadError where
  /-- Error `FileNotFoundError`: named record missing; carries the requested
  name and the available environment names. -/
  | notFound (envName : String) (available : List String)
  /-- Error `ValueError`: invalid JSON, with the parse diagnostic. -/
  | invalidJson (msg : String)
  /-- Error `RuntimeError`: any other error while loading, e.g. from
  `from_dict`. -/
  | runtimeError (msg : String)
deriving Repr, DecidableEq

/-- Look up `<name>.json` in the environments directory. -/
def findConfigFile (m : EnvironmentManager) (name : String) :
    Option EnvFile :=
  (m.environmentsDir.getD []).find?
    (fun f => f.stem == name && f.ext == "json")

/-- The environment name `load_environment` resolves: the explicit
argument when given, else `os.getenv('TEST_ENV', 'prod')`. -/
def loadEnvName (envArg testEnvVar : Option String) : String :=
  envArg.getD (testEnvVar.getD "prod")

/-- The method `load_environment`: resolve the name (argument, else `TEST_ENV`,
else `"prod"`), require `<name>.json` to exist, parse it, build the
config via `from_dict`, cache and return it. Returns the updated manager
state together with the result. -/
def EnvironmentManager.load_environment (m : EnvironmentManager)
    (envArg : Option String) (testEnvVar : Option String) :
    EnvironmentManager × Except LoadError EnvironmentConfig :=
  match findConfigFile m (loadEnvName envArg testEnvVar) with
  | none =>
      (m, .error (.notFound (loadEnvName envArg testEnvVar)
        m.get_available_environments))
  | some f =>
      match f.content with
      | .malformed msg => (m, .error (.invalidJson msg))
      | .record r =>
          match EnvironmentConfig.from_dict r with
          | .error e => (m, .error (.runtimeError e))
          | .ok c => ({ m with config := some c }, .ok c)

/-! ## `conftest.py`: command-line options and fixtures -/

/-- The value of the `--env` option as pytest hands it to
`request.config.getoption`: the flag's value when passed on the command
line, else the declared default `"prod"` (`pytest_addoption`). -/
def envOptionValue (cliEnv : Option String) : String :=
  cliEnv.getD "prod"

/-- The environment name actually used when resolution is initiated
through the test runner: the `test_environment` fixture always passes
`request.config.getoption("--env")` to `load_environment`. -/
def runnerEnvName (cliEnv testEnvVar : Option String) : String :=
  loadEnvName (some (envOptionValue cliEnv)) testEnvVar

/-- The value of the `--screenshot-on-failure` option: declared with
`action="store_true"` and `default=True`, so it is `True` whether or not
the flag is passed. -/
def screenshotOnFailureOptionValue (flagGiven : Bool) : Bool :=
  if flagGiven then true else true

/-- Python's `str.lower`, modelled characterwise over the string's
characters (the strings compared here are ASCII). -/
def pyLower (s : String) : String :=
  ⟨s.data.map Char.toLower⟩

/-- The CI indicator of the `driver` fixture:
`os.getenv('CI', 'false').lower() == 'true'`. -/
def ciTruthy (ciVar : Option String) : Bool :=
  pyLower (ciVar.getD "false") == "true"

/-- The effective headless flag of the `driver` fixture:
`test_environment.headless or <CI indicator>`. -/
def effectiveHeadless (configured : Bool) (ciVar : Option String) : Bool :=
  configured || ciTruthy ciVar

/-! ## The `driver` fixture lifecycle (claim about `quit`) -/

/-- Outcome of one test body. -/
inductive TestOutcome where
  | passed
  | failed
  | errored
deriving Repr, DecidableEq

/-- Calls issued to the browser session during one pytest session. -/
structure SessionTrace where
  navigations : Nat
  quitCalls : Nat
deriving Repr, DecidableEq

/-- Driver instantiation in the `driver` fixture: chrome, firefox and
edge are supported; any other browser name raises `ValueError`. -/
def createDriver (browserName : String) : Except String Unit :=
  let b := pyLower browserName
  if b == "chrome" || b == "firefox" || b == "edge" then .ok ()
  else .error ("Unsupported browser: " ++ b)

/-- One pytest session with the session-scoped `driver` fixture: the
fixture body up to `yield` runs once (instantiating the driver), each
test navigates to the base URL (`open_base_url`, autouse) and runs its
body, and the code after `yield` — the single `driver.quit()` call —
runs exactly once as the fixture finalizer after all tests, regardless
of their outcomes (pytest's yield-fixture teardown contract). -/
def runSession (cfg : EnvironmentConfig) (outcomes : List TestOutcome) :
    Except String SessionTrace :=
  match createDriver cfg.browser with
  | .error e => .error e
  | .ok _ =>
      let afterTests := outcomes.foldl
        (fun (t : SessionTrace) _ => { t with navigations := t.navigations + 1 })
        ({ navigations := 0, quitCalls := 0 } : SessionTrace)
      .ok { afterTests with quitCalls := afterTests.quitCalls + 1 }

/-! ## The failure observer: `pytest_runtest_makereport` -/

/-- The phase a test report describes (`rep.when`). -/
inductive Phase where
  | setup
  | call
  | teardown
deriving Repr, DecidableEq

/-- The report handed to `pytest_runtest_makereport`: the phase just
completed, whether it failed, and the test's identifier (`item.name`). -/
structure ReportInput where
  phase : Phase
  failed : Bool
  testName : String
deriving Repr, DecidableEq

/-- Outcomes of the side-effecting operations the capture attempt
performs; each `.error` models that operation raising. -/
structure CaptureOps where
  mkdirResult : Except String Unit
  grabResult : Except String Unit
  writeResult : Except String Unit
  attachResult : Except String Unit
deriving Repr

/-- Ambient state the hook reads: option values, whether the item has
resolved fixture values (`funcargs`) containing the driver and the
test environment, and the data the filename is built from. -/
structure HookCtx where
  screenshotOnFailure : Bool
  allureAttach : Bool
  hasFuncargs : Bool
  driverPresent : Bool
  envPresent : Bool
  envName : String
  browserName : String
  timestamp : String
deriving Repr, DecidableEq

/-- Computes `item.name.replace("::", "_").replace(" ", "_")`. -/
def sanitizeTestName (s : String) : String :=
  (s.replace "::" "_").replace " " "_"

/-- The failure screenshot filename:
`f"FAILED_{test_name}_{env_name}_{browser_name}_{timestamp}.png"`. -/
def failedScreenshotFilename (ctx : HookCtx) (testName : String) : String :=
  "FAILED" ++ "_" ++ sanitizeTestName testName ++ "_" ++ ctx.envName
    ++ "_" ++ ctx.browserName ++ "_" ++ ctx.timestamp ++ ".png"

/-- What the hook produced: files written under the results directory,
the `screenshot_path` attribute set on the report, whether the hook let
an exception escape, the report's (unchanged) failure flag, and the
diagnostic printed when capture failed. -/
structure HookResult where
  filesWritten : List String
  screenshotPath : Option String
  raised : Bool
  reportFailed : Bool
  loggedError : Option String
deriving Repr, DecidableEq

/-- The body of the hook's `try` block: create the directory, grab the
screenshot bytes, write to the file, and (when enabled) attach to the
report sink, in that order; the first operation that raises aborts the
rest. Returns the files written so far, the recorded path (set only
after every step succeeded), and the error, if any, that escaped the
block. -/
def captureAttempt (ctx : HookCtx) (testName : String) (ops : CaptureOps) :
    List String × Option String × Option String :=
  match ops.mkdirResult with
  | .error e => ([], none, some e)
  | .ok _ =>
      let path := "results/screenshots/" ++ failedScreenshotFilename ctx testName
      match ops.grabResult with
      | .error e => ([], none, some e)
      | .ok _ =>
          match ops.writeResult with
          | .error e => ([], none, some e)
          | .ok _ =>
              if ctx.allureAttach then
                match ops.attachResult with
                | .error e => ([path], none, some e)
                | .ok _ => ([path], some path, none)
              else ([path], some path, none)

/-- The hook `pytest_runtest_makereport`: when the completed phase is the test
body (`"call"`) and it failed, and screenshot capture is enabled with the
driver and test-environment fixture values present, run the capture
attempt inside `try`; the `except Exception` clause turns any error into
a printed diagnostic and never re-raises. In every other case the hook
does nothing. The report's own outcome is never modified. -/
def pytest_runtest_makereport (ctx : HookCtx) (rep : ReportInput)
    (ops : CaptureOps) : HookResult :=
  if rep.phase == Phase.call && rep.failed then
    if ctx.screenshotOnFailure && ctx.hasFuncargs then
      if ctx.driverPresent && ctx.envPresent then
        { filesWritten := (captureAttempt ctx rep.testName ops).1,
          screenshotPath := (captureAttempt ctx rep.testName ops).2.1,
          raised := false,
          reportFailed := rep.failed,
          loggedError := (captureAttempt ctx rep.testName ops).2.2 }
      else
        { filesWritten := [], screenshotPath := none, raised := false,
          reportFailed := rep.failed, loggedError := none }
    else
      { filesWritten := [], screenshotPath := none, raised := false,
        reportFailed := rep.failed, loggedError := none }
  else
    { filesWritten := [], screenshotPath := none, raised := false,
      reportFailed := rep.failed, loggedError := none }

/-- The `screenshot_helper` fixture's inner `capture_screenshot`
function: the same sequence of fallible operations inside `try`,
returning the path string on success; the `except Exception` clause
turns any raised error into the return value `None`. -/
def capture_screenshot (ops : CaptureOps) (path : String)
    (attachEnabled : Bool) : Option String :=
  match ops.mkdirResult with
  | .error _ => none
  | .ok _ =>
      match ops.grabResult with
      | .error _ => none
      | .ok _ =>
          match ops.writeResult with
          | .error _ => none
          | .ok _ =>
              if attachEnabled then
                match ops.attachResult with
                | .error _ => none
                | .ok _ => some path
              else some path

/-- String `s` contains `sub` as a contiguous substring. -/
def strContains (s sub : String) : Prop :=
  ∃ a b : List Char, s.data = a ++ sub.data ++ b

/-! ## `pages/base_page.py`: the visibility probe -/

/-- Result of the bounded `WebDriverWait(...).until(visibility_of...)`
call: the element became visible within the timeout, the wait raised
`TimeoutException`, or some other error was raised. -/
inductive WaitResult where
  | visible
  | timedOut (msg : String)
  | raised (msg : String)
deriving Repr, DecidableEq

namespace BasePage

/-- The method `BasePage.find`: the raising variant — waits for visibility and
propagates whatever the wait raises. -/
def find (w : WaitResult) : Except String Unit :=
  match w with
  | .visible => .ok ()
  | .timedOut msg => .error msg
  | .raised msg => .error msg

/-- The method `BasePage.is_visible`: wraps the same wait in `try`, returning
`True` on success; the bare `except` maps every raised error to
`False`. -/
def is_visible (w : WaitResult) : Bool :=
  match w with
  | .visible => true
  | .timedOut _ => false
  | .raised _ => false

end BasePage

/-! ## Shared sample data -/

/-- An environments directory holding `dev.json` and `prod.json`, both
with the empty record `{}`; the `_config` cache starts unset. -/
def sampleManager : EnvironmentManager :=
  { environmentsDir := some
      [⟨"dev", "json", .record RecordDict.empty⟩,
       ⟨"prod", "json", .record RecordDict.empty⟩]
    config := none }

/-! ## Theorems -/

/-- C1 (counterexample): resolution via `EnvironmentConfig.from_dict` is
not total on every record dictionary: when the record carries a
`window_size` entry that is an empty dict, `WindowSize(**window_size_data)`
raises `TypeError` and no `ResolvedConfig` is produced. -/
theorem fromDict_not_total_counterexample :
    (EnvironmentConfig.from_dict
      { RecordDict.empty with
          window_size := some { width := none, height := none, extraKeys := false } }).isOk
      = false := by
  rfl

/-- C1 (amended): on every record whose `window_size` entry, when
present, supplies exactly the `width` and `height` keys,
`EnvironmentConfig.from_dict` succeeds and yields the fully populated
configuration in which every absent field takes its documented default
(base_url "https://www.saucedemo.com/", username "standard_user",
password "secret_sauce", timeout 10, browser "chrome", headless false,
window 1920x1080, implicit_wait 3, page_load_timeout 20), as described
by `specResolve`; in particular the empty record yields exactly the
defaults. -/
theorem fromDict_defaults (r : RecordDict) (h : windowOk r = true) :
    EnvironmentConfig.from_dict r = .ok (specResolve r) := by
  unfold windowOk at h
  unfold EnvironmentConfig.from_dict specResolve
  cases hw : r.window_size with
  | none =>
      simp [hw, mkWindowSize, defaultWindowDict, Bind.bind, Except.bind]
  | some wd =>
      rw [hw] at h
      obtain ⟨ow, oh, ex⟩ := wd
      simp only [Bool.and_eq_true, Bool.not_eq_true'] at h
      obtain ⟨⟨how, hoh⟩, rfl⟩ := h
      obtain ⟨a, ha⟩ := Option.isSome_iff_exists.mp how
      obtain ⟨b, hb⟩ := Option.isSome_iff_exists.mp hoh
      subst ha hb
      simp [mkWindowSize, Bind.bind, Except.bind]

/-- C1 (witness): the empty record is window-well-formed and resolves to
exactly the documented defaults. -/
theorem fromDict_defaults_witness :
    windowOk RecordDict.empty = true ∧
    EnvironmentConfig.from_dict RecordDict.empty =
      .ok (specResolve RecordDict.empty) ∧
    specResolve RecordDict.empty =
      { environment := "prod", base_url := "https://www.saucedemo.com/",
        username := "standard_user", password := "secret_sauce",
        timeout := 10, browser := "chrome", headless := false,
        window_size := ⟨1920, 1080⟩, implicit_wait := 3,
        page_load_timeout := 20 } :=
  ⟨rfl, fromDict_defaults RecordDict.empty rfl, rfl⟩

/-- C4 (amended): `load_environment` itself resolves the name by the
precedence explicit argument > `TEST_ENV` > `"prod"`; but resolution
initiated through the test runner always passes the `--env` option value
— whose declared default is `"prod"` — as the explicit argument, so on
that path the name is the `--env` value (or `"prod"`) and `TEST_ENV` is
never consulted. -/
theorem envName_precedence :
    (∀ (a : String) (t : Option String), loadEnvName (some a) t = a) ∧
    (∀ v : String, loadEnvName none (some v) = v) ∧
    loadEnvName none none = "prod" ∧
    ∀ (cliEnv testEnvVar : Option String),
      runnerEnvName cliEnv testEnvVar = envOptionValue cliEnv :=
  ⟨fun _ _ => rfl, fun _ => rfl, rfl, fun _ _ => rfl⟩

/-- C4 (counterexample): through the test runner's `--env` option, with
the flag not passed and `TEST_ENV=dev`, the name used is `"prod"`, not
`"dev"`: the option's default `"prod"` is handed to `load_environment`
as the explicit argument, so `TEST_ENV` is ignored on that path. -/
theorem runner_ignores_testEnv_counterexample :
    runnerEnvName none (some "dev") = "prod" ∧ "prod" ≠ "dev" :=
  ⟨rfl, by decide⟩

/-- C5: whenever the CI indicator `os.getenv('CI','false').lower() ==
'true'` holds, the effective headless flag passed to the browser session
is true, regardless of the configured headless value. -/
theorem ci_forces_headless (configured : Bool) (ciVar : Option String)
    (h : ciTruthy ciVar = true) :
    effectiveHeadless configured ciVar = true := by
  unfold effectiveHeadless
  rw [h]
  exact Bool.or_true configured

/-- C5 (witness): `CI=True` is truthy and forces headless even when the
configuration says `headless=false`. -/
theorem ci_forces_headless_witness :
    ciTruthy (some "True") = true ∧
    effectiveHeadless false (some "True") = true :=
  ⟨by decide, ci_forces_headless false (some "True") (by decide)⟩

/-- Helper: a name outside the listed available environments has no
`<name>.json` file in the directory. -/
theorem findConfigFile_eq_none (m : EnvironmentManager) (name : String)
    (h : name ∉ m.get_available_environments) :
    findConfigFile m name = none := by
  unfold findConfigFile
  unfold EnvironmentManager.get_available_environments at h
  cases hd : m.environmentsDir with
  | none => rfl
  | some files =>
      rw [hd] at h
      simp only [Option.getD_some]
      cases hf : files.find? (fun f => f.stem == name && f.ext == "json") with
      | none => rfl
      | some f =>
          exfalso
          have hmem := List.mem_of_find?_eq_some hf
          have hp := List.find?_some hf
          rw [Bool.and_eq_true] at hp
          obtain ⟨h1, h2⟩ := hp
          exact h (List.mem_map.mpr
            ⟨f, List.mem_filter.mpr ⟨hmem, h2⟩, eq_of_beq h1⟩)

/-- C2: for every environment name that has no record file,
`load_environment` raises `FileNotFoundError` carrying exactly the
available environment names (the stems of the `*.json` files in the
environments directory), and the manager's state — in particular the
`_config` cache — is unchanged: no configuration is produced. -/
theorem load_environment_notFound (m : EnvironmentManager)
    (envArg testEnvVar : Option String)
    (h : loadEnvName envArg testEnvVar ∉ m.get_available_environments) :
    m.load_environment envArg testEnvVar =
      (m, .error (.notFound (loadEnvName envArg testEnvVar)
        m.get_available_environments)) := by
  have hf := findConfigFile_eq_none m _ h
  unfold EnvironmentManager.load_environment
  rw [hf]

/-- C2 (witness): requesting `staging` against a directory holding only
`dev.json` and `prod.json` yields `FileNotFoundError` listing
`["dev", "prod"]`, with the manager unchanged. -/
theorem load_environment_notFound_witness :
    "staging" ∉ sampleManager.get_available_environments ∧
    sampleManager.load_environment (some "staging") none =
      (sampleManager, .error (.notFound "staging" ["dev", "prod"])) :=
  ⟨by decide,
    load_environment_notFound sampleManager (some "staging") none (by decide)⟩

/-- Helper: a configuration built by `from_dict` carries the record's
own `environment` entry, defaulted to `"prod"`. -/
theorem fromDict_environment_field (r : RecordDict) (c : EnvironmentConfig)
    (h : EnvironmentConfig.from_dict r = .ok c) :
    c.environment = r.environment.getD "prod" := by
  unfold EnvironmentConfig.from_dict at h
  cases hm : mkWindowSize (r.window_size.getD defaultWindowDict) with
  | error e =>
      rw [hm] at h
      simp [Bind.bind, Except.bind] at h
  | ok ws =>
      rw [hm] at h
      simp only [Bind.bind, Except.bind, Except.ok.injEq] at h
      rw [← h]

/-- C3 (counterexample): resolving the empty record stored under the
name `dev` yields a configuration whose `environment` field is
`"prod"`, not the requested `"dev"`: `load_environment` never copies the
requested name into the configuration. -/
theorem load_environment_field_counterexample :
    ((sampleManager.load_environment (some "dev") none).2.map
      (fun c => c.environment)) = .ok "prod" ∧ "prod" ≠ "dev" :=
  ⟨rfl, by decide⟩

/-- C3 (amended): the `environment` field of a successfully resolved
configuration equals the stored record's own `environment` entry when
present and the fixed default `"prod"` otherwise, regardless of the
requested name. -/
theorem load_environment_field (m : EnvironmentManager)
    (envArg testEnvVar : Option String) (c : EnvironmentConfig)
    (h : (m.load_environment envArg testEnvVar).2 = .ok c) :
    ∃ f r, findConfigFile m (loadEnvName envArg testEnvVar) = some f ∧
      f.content = .record r ∧
      c.environment = r.environment.getD "prod" := by
  unfold EnvironmentManager.load_environment at h
  split at h
  · simp at h
  · rename_i f heq
    split at h
    · simp at h
    · rename_i r hcontent
      split at h
      · simp at h
      · rename_i c0 hdict
        simp only [Except.ok.injEq] at h
        subst h
        exact ⟨f, r, heq, hcontent, fromDict_environment_field r c0 hdict⟩

/-- C3 (witness): resolving `dev` (empty record) succeeds, and the
resulting `environment` field is the record's defaulted value. -/
theorem load_environment_field_witness :
    (sampleManager.load_environment (some "dev") none).2 =
      .ok (specResolve RecordDict.empty) ∧
    (∃ f r,
      findConfigFile sampleManager (loadEnvName (some "dev") none) = some f ∧
      f.content = .record r ∧
      (specResolve RecordDict.empty).environment = r.environment.getD "prod") :=
  ⟨rfl, load_environment_field sampleManager (some "dev") none
    (specResolve RecordDict.empty) rfl⟩

/-- C10: `BasePage.is_visible` is total — it returns a boolean for every
wait outcome, returning `true` exactly when the bounded wait for
visibility succeeds, and `false` on every raised error, the timeout
included, in contrast with the raising variant `BasePage.find`. -/
theorem is_visible_total (w : WaitResult) :
    (BasePage.is_visible w = true ↔ BasePage.find w = .ok ()) ∧
    (BasePage.is_visible w = false ↔ ∃ msg, BasePage.find w = .error msg) := by
  cases w <;> simp [BasePage.is_visible, BasePage.find]

/-- Helper: the result component of `load_environment` depends only on
the environments directory, not on the `_config` cache. -/
theorem load_environment_result_congr (m m' : EnvironmentManager)
    (envArg testEnvVar : Option String)
    (hdir : m'.environmentsDir = m.environmentsDir) :
    (m'.load_environment envArg testEnvVar).2 =
      (m.load_environment envArg testEnvVar).2 := by
  have hfind : ∀ n, findConfigFile m' n = findConfigFile m n := by
    intro n
    unfold findConfigFile
    rw [hdir]
  have havail :
      m'.get_available_environments = m.get_available_environments := by
    unfold EnvironmentManager.get_available_environments
    rw [hdir]
  unfold EnvironmentManager.load_environment
  rw [hfind, havail]
  cases hf : findConfigFile m (loadEnvName envArg testEnvVar) with
  | none => rfl
  | some f =>
      obtain ⟨stem, ext, content⟩ := f
      cases content with
      | malformed msg => rfl
      | record r =>
          dsimp only
          cases EnvironmentConfig.from_dict r with
          | error e => rfl
          | ok c => rfl

/-- Helper: `load_environment` never changes the environments
directory. -/
theorem load_environment_preserves_dir (m : EnvironmentManager)
    (envArg testEnvVar : Option String) :
    (m.load_environment envArg testEnvVar).1.environmentsDir =
      m.environmentsDir := by
  unfold EnvironmentManager.load_environment
  split
  · rfl
  · split
    · rfl
    · split
      · rfl
      · rfl

/-- C9: resolution is idempotent: with the on-disk records and the
inputs fixed, calling `load_environment` a second time yields the same
result as the first call, whatever the first call did to the manager's
cached state. -/
theorem load_environment_idempotent (m : EnvironmentManager)
    (envArg testEnvVar : Option String) :
    ((m.load_environment envArg testEnvVar).1.load_environment
        envArg testEnvVar).2 =
      (m.load_environment envArg testEnvVar).2 :=
  load_environment_result_congr m (m.load_environment envArg testEnvVar).1
    envArg testEnvVar (load_environment_preserves_dir m envArg testEnvVar)

/-- Helper: the per-test navigation loop never touches the quit
counter. -/
theorem foldl_navigation_quitCalls (l : List TestOutcome) (t : SessionTrace) :
    (l.foldl (fun (t : SessionTrace) _ =>
      { t with navigations := t.navigations + 1 }) t).quitCalls =
      t.quitCalls := by
  induction l generalizing t with
  | nil => rfl
  | cons x xs ih => exact ih _

/-- C6: in every test-session run that started a browser session, the
session's `quit` is invoked exactly once — at session teardown — no
matter how many tests ran or whether they passed, failed, or errored. -/
theorem browser_quit_exactly_once (cfg : EnvironmentConfig)
    (outcomes : List TestOutcome) (t : SessionTrace)
    (h : runSession cfg outcomes = .ok t) :
    t.quitCalls = 1 := by
  unfold runSession at h
  split at h
  · exact absurd h (by simp)
  · simp only [Except.ok.injEq] at h
    subst h
    simp [foldl_navigation_quitCalls]

/-- C6 (witness): a session over the default chrome configuration with a
failing, a passing and an erroring test quits the browser exactly
once. -/
theorem browser_quit_exactly_once_witness :
    runSession (specResolve RecordDict.empty) [.failed, .passed, .errored] =
      .ok { navigations := 3, quitCalls := 1 } ∧
    SessionTrace.quitCalls { navigations := 3, quitCalls := 1 } = 1 :=
  ⟨rfl, browser_quit_exactly_once (specResolve RecordDict.empty)
    [.failed, .passed, .errored] { navigations := 3, quitCalls := 1 } rfl⟩

/-- Helper: when directory creation, capture and write all succeed, the
capture attempt writes exactly the one failure-screenshot file. -/
theorem captureAttempt_files (ctx : HookCtx) (testName : String)
    (ops : CaptureOps) (hmk : ops.mkdirResult = .ok ())
    (hgrab : ops.grabResult = .ok ()) (hwr : ops.writeResult = .ok ()) :
    (captureAttempt ctx testName ops).1 =
      ["results/screenshots/" ++ failedScreenshotFilename ctx testName] := by
  unfold captureAttempt
  rw [hmk, hgrab, hwr]
  cases hAl : ctx.allureAttach with
  | false => simp
  | true =>
      cases hAt : ops.attachResult with
      | error e => simp
      | ok u => simp

/-- C7: with the driver and environment fixture values present and the
underlying file operations succeeding, the failure observer writes the
single failure-screenshot file exactly when the completed phase is the
test body and it failed — never for setup or teardown phases and never
for passing tests — and the file's name contains the literal substring
FAILED and the (sanitized) test identifier. The screenshot option is
`store_true` with default `True`, so it never disables capture. -/
theorem failure_screenshot_capture (ctx : HookCtx) (rep : ReportInput)
    (ops : CaptureOps) (flagGiven : Bool)
    (hopt : ctx.screenshotOnFailure = screenshotOnFailureOptionValue flagGiven)
    (hfa : ctx.hasFuncargs = true)
    (hdrv : ctx.driverPresent = true)
    (henv : ctx.envPresent = true)
    (hmk : ops.mkdirResult = .ok ())
    (hgrab : ops.grabResult = .ok ())
    (hwr : ops.writeResult = .ok ()) :
    ((pytest_runtest_makereport ctx rep ops).filesWritten =
        ["results/screenshots/" ++ failedScreenshotFilename ctx rep.testName] ↔
      (rep.phase = Phase.call ∧ rep.failed = true)) ∧
    (¬(rep.phase = Phase.call ∧ rep.failed = true) →
      (pytest_runtest_makereport ctx rep ops).filesWritten = []) ∧
    strContains (failedScreenshotFilename ctx rep.testName) "FAILED" ∧
    strContains (failedScreenshotFilename ctx rep.testName)
      (sanitizeTestName rep.testName) := by
  have hopt' : ctx.screenshotOnFailure = true := by
    rw [hopt]
    cases flagGiven <;> rfl
  have hfiles := captureAttempt_files ctx rep.testName ops hmk hgrab hwr
  have hfw : (pytest_runtest_makereport ctx rep ops).filesWritten =
      (if rep.phase == Phase.call && rep.failed then
        ["results/screenshots/" ++ failedScreenshotFilename ctx rep.testName]
      else []) := by
    unfold pytest_runtest_makereport
    rw [hopt', hfa, hdrv, henv]
    cases hbool : (rep.phase == Phase.call && rep.failed) with
    | false => simp
    | true => simp [hfiles]
  have hiff : ((rep.phase == Phase.call && rep.failed) = true) ↔
      (rep.phase = Phase.call ∧ rep.failed = true) := by
    simp [Bool.and_eq_true]
  refine ⟨?_, ?_, ?_, ?_⟩
  · rw [hfw]
    cases hbool : (rep.phase == Phase.call && rep.failed) with
    | false =>
        simp only [if_false, Bool.false_eq_true]
        constructor
        · intro hl
          exact absurd hl (by simp)
        · intro hr
          exact absurd (hiff.mpr hr) (by rw [hbool]; simp)
    | true => simp [hiff.mp hbool]
  · intro hn
    rw [hfw, if_neg]
    intro hcond
    exact hn (hiff.mp hcond)
  · exact ⟨[], ("_" ++ sanitizeTestName rep.testName ++ "_" ++ ctx.envName
      ++ "_" ++ ctx.browserName ++ "_" ++ ctx.timestamp ++ ".png").data,
      by simp [failedScreenshotFilename, String.data_append]⟩
  · exact ⟨("FAILED" ++ "_").data, ("_" ++ ctx.envName ++ "_"
      ++ ctx.browserName ++ "_" ++ ctx.timestamp ++ ".png").data,
      by simp [failedScreenshotFilename, String.data_append]⟩

/-- Hook context for the witness: all options at their defaults, driver
and environment fixtures present. -/
def sampleHookCtx : HookCtx :=
  { screenshotOnFailure := true, allureAttach := true, hasFuncargs := true,
    driverPresent := true, envPresent := true, envName := "prod",
    browserName := "chrome", timestamp := "20250101_120000" }

/-- A failed test-body report for the witness. -/
def sampleReport : ReportInput :=
  { phase := .call, failed := true, testName := "test_login" }

/-- Capture operations that all succeed, for the witness. -/
def sampleOps : CaptureOps :=
  { mkdirResult := .ok (), grabResult := .ok (), writeResult := .ok (),
    attachResult := .ok () }

/-- C7 (witness): a failed `call`-phase report for `test_login` writes
exactly one screenshot whose name contains FAILED and the test name. -/
theorem failure_screenshot_capture_witness :
    ((pytest_runtest_makereport sampleHookCtx sampleReport sampleOps).filesWritten =
        ["results/screenshots/"
          ++ failedScreenshotFilename sampleHookCtx sampleReport.testName] ↔
      (sampleReport.phase = Phase.call ∧ sampleReport.failed = true)) ∧
    (¬(sampleReport.phase = Phase.call ∧ sampleReport.failed = true) →
      (pytest_runtest_makereport sampleHookCtx sampleReport sampleOps).filesWritten
        = []) ∧
    strContains (failedScreenshotFilename sampleHookCtx sampleReport.testName)
      "FAILED" ∧
    strContains (failedScreenshotFilename sampleHookCtx sampleReport.testName)
      (sanitizeTestName sampleReport.testName) :=
  failure_screenshot_capture sampleHookCtx sampleReport sampleOps false
    rfl rfl rfl rfl rfl rfl rfl

/-- C8: the failure observer never lets an artifact-capture error escape
and never alters the report's outcome — whatever the operation outcomes
are, the hook does not raise and the failure flag is passed through
unchanged — and the `screenshot_helper`'s capture function likewise
returns the path on success or `None`, never raising. -/
theorem capture_errors_never_propagate (ctx : HookCtx) (rep : ReportInput)
    (ops : CaptureOps) (path : String) (attachEnabled : Bool) :
    (pytest_runtest_makereport ctx rep ops).raised = false ∧
    (pytest_runtest_makereport ctx rep ops).reportFailed = rep.failed ∧
    (capture_screenshot ops path attachEnabled = some path ∨
      capture_screenshot ops path attachEnabled = none) := by
  obtain ⟨mk, gr, wr, att⟩ := ops
  refine ⟨?_, ?_, ?_⟩
  · unfold pytest_runtest_makereport
    split
    · split
      · split
        · rfl
        · rfl
      · rfl
    · rfl
  · unfold pytest_runtest_makereport
    split
    · split
      · split
        · rfl
        · rfl
      · rfl
    · rfl
  · cases mk <;> cases gr <;> cases wr <;> cases attachEnabled <;>
      cases att <;> simp [capture_screenshot]

end PytestSelenium
